import Mathlib

/-!
Verification development for the SENTINAL multi-chain DeFi health monitor.

The development shallowly embeds three parts of the repository:

* `SentinalGuard.sol` — the on-chain circuit breaker ("Guard"): registration
  of consumers, the `isSafe` query, oracle-driven global and per-protocol
  pause updates, and the manual unpause override.
* `ReserveOracleV2` (the ledger contract): aggregate report recording via
  `_processReport`, the per-protocol batch write `submitProtocolData`, and
  the stored previous-utilization baselines.
* `healthcheck/main.ts` (the CRE workflow): the per-protocol readers for
  aave / compound / lido / erc4626, velocity calculation, risk scoring and
  severity classification.

Solidity `uint256` values are modeled as `Nat` (no overflow occurs in any of
the arithmetic involved: only additions of counters and comparisons).
`keccak256` hashing of protocol-name strings is modeled by keying maps
directly with the name, the standard injectivity assumption.  Reverting
calls are modeled with `Except String`; a reverted call leaves the caller
state untouched, which the `exec` combinators make explicit.  TypeScript
number arithmetic on solvency ratios is modeled over `ℚ`: every concrete
value appearing in the claims is far below the range where IEEE doubles
round, and the divergence the development exhibits (a quotient that is not
an integer) is the same in both semantics.
-/

namespace Sentinal

/-- Consumer / contract addresses. -/
abbrev Addr := Nat

-- ━━━━━━━━━━━━━━━━━━━━━━━━━━━━━━━━━━━━━━━━━━━━━━━
-- SentinalGuard.sol — state
-- ━━━━━━━━━━━━━━━━━━━━━━━━━━━━━━━━━━━━━━━━━━━━━━━

/-- Registration record from SentinalGuard.sol. -/
structure Registration where
  active : Bool
  watchedProtocols : List String
  registeredAt : Nat
  pauseCount : Nat
deriving Repr, DecidableEq

/-- Per-protocol circuit-breaker status from SentinalGuard.sol. -/
structure ProtocolStatus where
  paused : Bool
  warning : Bool
  solvency : Nat
  lastCheckNumber : Nat
  lastUpdated : Nat
deriving Repr, DecidableEq

/-- The default (zero-initialized) registration of an unknown address. -/
def zeroRegistration : Registration :=
  { active := false, watchedProtocols := [], registeredAt := 0, pauseCount := 0 }

/-- The default (zero-initialized) status of an unknown protocol name. -/
def zeroProtocolStatus : ProtocolStatus :=
  { paused := false, warning := false, solvency := 0, lastCheckNumber := 0, lastUpdated := 0 }

/-- Full storage of the SentinalGuard contract.  Mappings become total
functions returning the zero value by default, exactly as Solidity storage
does. -/
structure GuardState where
  owner : Addr
  oracle : Addr
  globalPaused : Bool
  currentSeverity : Nat
  totalPauseEvents : Nat
  lastGlobalUpdate : Nat
  registrations : Addr → Registration
  registeredList : List Addr
  totalRegisteredCount : Nat
  protocolStatus : String → ProtocolStatus

/-- Solvency below this pauses a protocol (90 percent in basis points). -/
def SOLVENCY_PAUSE_THRESHOLD : Nat := 9000

/-- Solvency below this warns but does not pause (95 percent). -/
def SOLVENCY_WARN_THRESHOLD : Nat := 9500

/-- Constructor of SentinalGuard: owner is the deployer, everything else is
zero-initialized. -/
def initGuard (deployer : Addr) : GuardState where
  owner := deployer
  oracle := 0
  globalPaused := false
  currentSeverity := 0
  totalPauseEvents := 0
  lastGlobalUpdate := 0
  registrations := fun _ => zeroRegistration
  registeredList := []
  totalRegisteredCount := 0
  protocolStatus := fun _ => zeroProtocolStatus

-- ━━━━━━━━━━━━━━━━━━━━━━━━━━━━━━━━━━━━━━━━━━━━━━━
-- SentinalGuard.sol — operations
-- ━━━━━━━━━━━━━━━━━━━━━━━━━━━━━━━━━━━━━━━━━━━━━━━

/-- `register(watchedProtocols)` from SentinalGuard.sol.  Pushes the sender
onto the registered list only when not currently active, then replaces the
watch-list. -/
def register (s : GuardState) (sender : Addr) (watchedProtocols : List String)
    (ts : Nat) : Except String GuardState :=
  if watchedProtocols.length > 10 then
    Except.error "SentinalGuard: max 10 watched protocols"
  else
    let reg := s.registrations sender
    let s1 :=
      if !reg.active then
        { s with registeredList := s.registeredList ++ [sender],
                 totalRegisteredCount := s.totalRegisteredCount + 1 }
      else s
    Except.ok { s1 with registrations := fun a =>
      if a = sender then
        { active := true, watchedProtocols := watchedProtocols,
          registeredAt := ts, pauseCount := reg.pauseCount }
      else s1.registrations a }

/-- `deregister()` from SentinalGuard.sol.  Sets the sender inactive; the
registered list is not touched. -/
def deregister (s : GuardState) (sender : Addr) : Except String GuardState :=
  if !(s.registrations sender).active then
    Except.error "SentinalGuard: not registered"
  else
    Except.ok { s with
      registrations := fun a =>
        if a = sender then { s.registrations sender with active := false }
        else s.registrations a,
      totalRegisteredCount := s.totalRegisteredCount - 1 }

/-- `isSafe(protocol)` from SentinalGuard.sol.  A total function: an
unregistered address reads safe, then the global pause, then each watched
protocol is checked. -/
def isSafe (s : GuardState) (protocol : Addr) : Bool :=
  let reg := s.registrations protocol
  if !reg.active then true
  else if s.globalPaused then false
  else !(reg.watchedProtocols.any fun p => (s.protocolStatus p).paused)

/-- `isProtocolSafe(protocolName)` from SentinalGuard.sol. -/
def isProtocolSafe (s : GuardState) (protocolName : String) : Bool :=
  if s.globalPaused then false else !(s.protocolStatus protocolName).paused

/-- `isGloballyPaused()` from SentinalGuard.sol. -/
def isGloballyPaused (s : GuardState) : Bool := s.globalPaused

/-- `updateGlobalStatus(severity)` from SentinalGuard.sol, gated on the
oracle caller.  Event emission is not modeled; the pause-event counter
update is. -/
def updateGlobalStatus (s : GuardState) (caller : Addr) (severity : Nat)
    (ts : Nat) : Except String GuardState :=
  if caller ≠ s.oracle then Except.error "SentinalGuard: not oracle"
  else
    let wasGlobalPaused := s.globalPaused
    let s1 := { s with currentSeverity := severity, lastGlobalUpdate := ts,
                       globalPaused := severity == 2 }
    let s2 :=
      if s1.globalPaused && !wasGlobalPaused then
        { s1 with totalPauseEvents := s1.totalPauseEvents + 1 }
      else s1
    Except.ok s2

/-- `updateProtocolStatus(name, solvency, checkNumber)` from
SentinalGuard.sol, gated on the oracle caller.  The `GuardTriggered` event
argument is computed by `countAffected` below; only the state effects are
kept here. -/
def updateProtocolStatus (s : GuardState) (caller : Addr) (name : String)
    (solvency : Nat) (checkNumber : Nat) (ts : Nat) : Except String GuardState :=
  if caller ≠ s.oracle then Except.error "SentinalGuard: not oracle"
  else
    let wasPaused := (s.protocolStatus name).paused
    let ps : ProtocolStatus :=
      { paused := decide (solvency < SOLVENCY_PAUSE_THRESHOLD),
        warning := decide (solvency < SOLVENCY_WARN_THRESHOLD),
        solvency := solvency, lastCheckNumber := checkNumber, lastUpdated := ts }
    let s1 := { s with protocolStatus := fun n =>
                  if n = name then ps else s.protocolStatus n }
    let s2 :=
      if ps.paused && !wasPaused then
        { s1 with totalPauseEvents := s1.totalPauseEvents + 1 }
      else s1
    Except.ok s2

/-- `manualUnpause(protocolName)` from SentinalGuard.sol, gated on the
owner.  The empty name unpauses global; otherwise only the named protocol
flag is cleared. -/
def manualUnpause (s : GuardState) (caller : Addr) (protocolName : String) :
    Except String GuardState :=
  if caller ≠ s.owner then Except.error "SentinalGuard: not owner"
  else if protocolName = "" then
    Except.ok { s with globalPaused := false }
  else
    Except.ok { s with protocolStatus := fun n =>
      if n = protocolName then { s.protocolStatus protocolName with paused := false }
      else s.protocolStatus n }

/-- The list of registered-list entries that are active and watch the given
name; the inner loop of `_countAffected` with its `break` contributes
exactly one per matching slot. -/
def affectedWatchers (s : GuardState) (name : String) : List Addr :=
  s.registeredList.filter fun a =>
    (s.registrations a).active &&
      ((s.registrations a).watchedProtocols.any fun w => w == name)

/-- `_countAffected(nameHash)` from SentinalGuard.sol. -/
def countAffected (s : GuardState) (name : String) : Nat :=
  (affectedWatchers s name).length

/-- Apply a guard call with revert semantics: a failing call leaves the
state exactly as it was. -/
def execG (s : GuardState) (r : Except String GuardState) : GuardState :=
  match r with
  | Except.ok s1 => s1
  | Except.error _ => s

/-- Registration-facing calls of the guard, for reasoning about arbitrary
register / deregister histories. -/
inductive GuardCall where
  | register (sender : Addr) (watched : List String) (ts : Nat)
  | deregister (sender : Addr)
deriving Repr, DecidableEq

/-- One step of a guard history (revert semantics on failures). -/
def applyCall (s : GuardState) (c : GuardCall) : GuardState :=
  match c with
  | GuardCall.register sender watched ts => execG s (register s sender watched ts)
  | GuardCall.deregister sender => execG s (deregister s sender)

/-- Run a sequence of register / deregister calls. -/
def runCalls (s : GuardState) (cs : List GuardCall) : GuardState :=
  cs.foldl applyCall s

/-- Number of register calls issued by a given address in a history. -/
def registerCallsBy (cs : List GuardCall) (a : Addr) : Nat :=
  (cs.filter fun c =>
    match c with
    | GuardCall.register sender _ _ => sender == a
    | GuardCall.deregister _ => false).length

-- ━━━━━━━━━━━━━━━━━━━━━━━━━━━━━━━━━━━━━━━━━━━━━━━
-- ReserveOracleV2 — state
-- ━━━━━━━━━━━━━━━━━━━━━━━━━━━━━━━━━━━━━━━━━━━━━━━

/-- Aggregate health report struct from ReserveOracleV2. -/
structure HealthReport where
  totalReservesUSD : Nat
  totalClaimedUSD : Nat
  globalRatioBps : Nat
  riskScore : Nat
  timestamp : Nat
  checkNumber : Nat
  severity : Nat
  anomalyDetected : Bool
deriving Repr, DecidableEq

/-- Per-protocol report struct from ReserveOracleV2. -/
structure ProtocolReport where
  name : String
  protocolType : String
  chain : String
  claimed : Nat
  actual : Nat
  solvencyRatioBps : Nat
  utilization : Nat
  velocityBps : Nat
  velocityNegative : Bool
  timestamp : Nat
deriving Repr, DecidableEq

/-- Per-chain rollup struct from ReserveOracleV2. -/
structure ChainStats where
  totalReserves : Nat
  totalClaimed : Nat
  protocolCount : Nat
  lastUpdated : Nat
deriving Repr, DecidableEq

/-- The zero-initialized aggregate report of a fresh storage slot. -/
def zeroHealthReport : HealthReport :=
  { totalReservesUSD := 0, totalClaimedUSD := 0, globalRatioBps := 0,
    riskScore := 0, timestamp := 0, checkNumber := 0, severity := 0,
    anomalyDetected := false }

/-- The zero-initialized per-protocol report of a fresh storage slot. -/
def zeroProtocolReport : ProtocolReport :=
  { name := "", protocolType := "", chain := "", claimed := 0, actual := 0,
    solvencyRatioBps := 0, utilization := 0, velocityBps := 0,
    velocityNegative := false, timestamp := 0 }

/-- The zero-initialized chain rollup of a fresh storage slot. -/
def zeroChainStats : ChainStats :=
  { totalReserves := 0, totalClaimed := 0, protocolCount := 0, lastUpdated := 0 }

/-- Full storage of the ReserveOracleV2 ledger contract.  Mappings keyed by
`keccak256` of a name are keyed by the name itself (keccak injectivity).
The linked guard and emergency-controller addresses are omitted: both are
reached only through best-effort external calls (`try ... catch` and a
low-level call) whose outcome never feeds back into ledger storage. -/
structure OracleState where
  owner : Addr
  forwarder : Addr
  reporter : Addr
  latestReport : HealthReport
  reportHistory : List HealthReport
  reports : Nat → HealthReport
  protocolReports : Nat → Nat → ProtocolReport
  protocolCountPerCheck : Nat → Nat
  latestProtocolData : String → ProtocolReport
  trackedProtocols : List String
  protocolTracked : String → Bool
  previousUtilization : String → Nat
  chainStats : String → ChainStats
  trackedChains : List String
  chainTracked : String → Bool
  chainNames : String → String
  totalChecks : Nat
  totalWarnings : Nat
  totalCritical : Nat
  totalAnomalies : Nat
  highestRiskScore : Nat
  highestRiskCheckNumber : Nat
  totalVelocityAlerts : Nat
  highestVelocityBps : Nat
  highestVelocityProtocol : String

/-- Velocity above this triggers an alert (5 percent per cycle, in bps). -/
def VELOCITY_ALERT_THRESHOLD : Nat := 500

/-- Constructor of ReserveOracleV2: owner and reporter are the deployer,
the forwarder is the constructor argument, storage is zero-initialized. -/
def initOracle (deployer forwarderAddr : Addr) : OracleState where
  owner := deployer
  forwarder := forwarderAddr
  reporter := deployer
  latestReport := zeroHealthReport
  reportHistory := []
  reports := fun _ => zeroHealthReport
  protocolReports := fun _ _ => zeroProtocolReport
  protocolCountPerCheck := fun _ => 0
  latestProtocolData := fun _ => zeroProtocolReport
  trackedProtocols := []
  protocolTracked := fun _ => false
  previousUtilization := fun _ => 0
  chainStats := fun _ => zeroChainStats
  trackedChains := []
  chainTracked := fun _ => false
  chainNames := fun _ => ""
  totalChecks := 0
  totalWarnings := 0
  totalCritical := 0
  totalAnomalies := 0
  highestRiskScore := 0
  highestRiskCheckNumber := 0
  totalVelocityAlerts := 0
  highestVelocityBps := 0
  highestVelocityProtocol := ""

-- ━━━━━━━━━━━━━━━━━━━━━━━━━━━━━━━━━━━━━━━━━━━━━━━
-- ReserveOracleV2 — operations
-- ━━━━━━━━━━━━━━━━━━━━━━━━━━━━━━━━━━━━━━━━━━━━━━━

/-- `_processReport(report)` from ReserveOracleV2: stores the report under
the check number carried inside it, appends it to the history, updates the
counters and the running peak risk score.  The pushes into SentinalGuard
and the emergency controller are best-effort external calls that do not
touch ledger storage and are not modeled. -/
def processReport (s : OracleState) (report : HealthReport) : OracleState :=
  let s1 := { s with
    latestReport := report,
    reports := fun n => if n = report.checkNumber then report else s.reports n,
    reportHistory := s.reportHistory ++ [report],
    totalChecks := s.totalChecks + 1 }
  let s2 :=
    if report.severity == 1 then { s1 with totalWarnings := s1.totalWarnings + 1 }
    else s1
  let s3 :=
    if report.severity == 2 then { s2 with totalCritical := s2.totalCritical + 1 }
    else s2
  let s4 :=
    if report.anomalyDetected then { s3 with totalAnomalies := s3.totalAnomalies + 1 }
    else s3
  if report.riskScore > s4.highestRiskScore then
    { s4 with highestRiskScore := report.riskScore,
              highestRiskCheckNumber := report.checkNumber }
  else s4

/-- `onReport(metadata, report)` from ReserveOracleV2: forwarder-gated
decode of the DON report followed by `_processReport`.  ABI decoding is
modeled by receiving the decoded record directly. -/
def onReport (s : OracleState) (caller : Addr) (report : HealthReport) :
    Except String OracleState :=
  if caller ≠ s.forwarder then Except.error "Not authorized forwarder"
  else Except.ok (processReport s report)

/-- `simulateHealthy()` from ReserveOracleV2: records a canned healthy
report with check number `totalChecks + 1`. -/
def simulateHealthy (s : OracleState) (ts : Nat) : OracleState :=
  processReport s
    { totalReservesUSD := 4608879987, totalClaimedUSD := 4608644781,
      globalRatioBps := 10000, riskScore := 0, timestamp := ts,
      checkNumber := s.totalChecks + 1, severity := 0, anomalyDetected := false }

/-- Body of one iteration of the `submitProtocolData` loop, at index `i`
with that row of the parallel arrays. -/
def submitRow (checkNumber ts i : Nat) (name ptype chain : String)
    (claimedI actualI solvI utilI velI : Nat) (velNegI : Bool)
    (s : OracleState) : OracleState :=
  let pr : ProtocolReport :=
    { name := name, protocolType := ptype, chain := chain,
      claimed := claimedI, actual := actualI, solvencyRatioBps := solvI,
      utilization := utilI, velocityBps := velI, velocityNegative := velNegI,
      timestamp := ts }
  let s1 := { s with
    protocolReports := fun c j =>
      if c = checkNumber ∧ j = i then pr else s.protocolReports c j,
    latestProtocolData := fun n =>
      if n = name then pr else s.latestProtocolData n,
    previousUtilization := fun n =>
      if n = name then utilI else s.previousUtilization n }
  let s2 :=
    if s1.protocolTracked name then s1
    else { s1 with
      trackedProtocols := s1.trackedProtocols ++ [name],
      protocolTracked := fun n => if n = name then true else s1.protocolTracked n }
  let s3 :=
    if s2.chainTracked chain then s2
    else { s2 with
      trackedChains := s2.trackedChains ++ [chain],
      chainTracked := fun n => if n = chain then true else s2.chainTracked n,
      chainNames := fun n => if n = chain then chain else s2.chainNames n }
  let cs := s3.chainStats chain
  let cs1 :=
    if cs.lastUpdated < ts - 1 then
      { cs with totalReserves := 0, totalClaimed := 0, protocolCount := 0 }
    else cs
  let cs2 : ChainStats :=
    { totalReserves := cs1.totalReserves + actualI,
      totalClaimed := cs1.totalClaimed + claimedI,
      protocolCount := cs1.protocolCount + 1, lastUpdated := ts }
  let s4 := { s3 with chainStats := fun n =>
    if n = chain then cs2 else s3.chainStats n }
  if velI ≥ VELOCITY_ALERT_THRESHOLD then
    let s5 := { s4 with totalVelocityAlerts := s4.totalVelocityAlerts + 1 }
    if velI > s5.highestVelocityBps then
      { s5 with highestVelocityBps := velI, highestVelocityProtocol := name }
    else s5
  else s4

/-- `submitProtocolData(...)` from ReserveOracleV2: reporter-gated batch
write of parallel per-protocol arrays.  An empty batch or any length
mismatch reverts before any write; otherwise each row is written in order
and the per-check protocol count is recorded.  The best-effort
`updateProtocolStatus` push into the guard inside the loop only feeds an
event counter local to the call and is outside ledger storage. -/
def submitProtocolData (s : OracleState) (caller : Addr) (checkNumber : Nat)
    (names types chains : List String)
    (claimed actual solvencyRatios utilizations velocityBps : List Nat)
    (velocityNegative : List Bool) (ts : Nat) : Except String OracleState :=
  if ¬(caller = s.reporter ∨ caller = s.owner) then
    Except.error "Not authorized reporter"
  else
    let count := names.length
    if count = 0 then Except.error "Empty data"
    else if ¬(types.length = count ∧ chains.length = count ∧
        claimed.length = count ∧ actual.length = count ∧
        solvencyRatios.length = count ∧ utilizations.length = count ∧
        velocityBps.length = count ∧ velocityNegative.length = count) then
      Except.error "Array length mismatch"
    else
      let s1 := (List.range count).foldl
        (fun st i => submitRow checkNumber ts i
          (names.getD i "") (types.getD i "") (chains.getD i "")
          (claimed.getD i 0) (actual.getD i 0) (solvencyRatios.getD i 0)
          (utilizations.getD i 0) (velocityBps.getD i 0)
          (velocityNegative.getD i false) st) s
      Except.ok { s1 with protocolCountPerCheck := fun c =>
        if c = checkNumber then count else s1.protocolCountPerCheck c }

/-- `getPreviousUtilizations(names)` from ReserveOracleV2: the stored
baseline utilizations, zero for a name never written. -/
def getPreviousUtilizations (s : OracleState) (names : List String) : List Nat :=
  names.map fun n => s.previousUtilization n

/-- Apply an oracle call with revert semantics: a failing call leaves the
state exactly as it was. -/
def execO (s : OracleState) (r : Except String OracleState) : OracleState :=
  match r with
  | Except.ok s1 => s1
  | Except.error _ => s

-- ━━━━━━━━━━━━━━━━━━━━━━━━━━━━━━━━━━━━━━━━━━━━━━━
-- healthcheck/main.ts — protocol readers
-- ━━━━━━━━━━━━━━━━━━━━━━━━━━━━━━━━━━━━━━━━━━━━━━━

/-- The computed per-protocol result of one reader invocation in the CRE
workflow (interface `ProtocolResult` in main.ts).  The field named
`solvencyRatio` in the source is kept here as `solvencyRatioBps : ℚ`: the
workflow computes it by a plain division that is NOT floored, so its exact
value is a rational, in basis points. -/
structure ProtocolResultW where
  name : String
  protocolType : String
  chain : String
  claimed : Nat
  actual : Nat
  solvencyRatioBps : ℚ
  utilizationBps : Nat
deriving Repr, DecidableEq

/-- `readAave` from main.ts, as a function of the three raw on-chain reads
(aToken total supply, idle liquidity, variable-debt total supply).  Raw
bigint amounts are floor-divided by `10 ^ decimals` first; the ratio is the
plain (unfloored) quotient while the utilization is floored. -/
def readAave (decimals deposits liquidity borrows : Nat)
    (name chain : String) : ProtocolResultW :=
  let d := 10 ^ decimals
  let claimedUSD := deposits / d
  let actualUSD := (liquidity + borrows) / d
  let ratio : ℚ :=
    if claimedUSD > 0 then (actualUSD * 10000 : ℚ) / (claimedUSD : ℚ) else 10000
  let utilizationBps :=
    if claimedUSD > 0 then (borrows / d) * 10000 / claimedUSD else 0
  { name := name, protocolType := "aave", chain := chain,
    claimed := claimedUSD, actual := actualUSD, solvencyRatioBps := ratio,
    utilizationBps := utilizationBps }

/-- `readCompound` from main.ts, as a function of the raw reads (Comet
total supply, Comet total borrow, asset balance of the pool). -/
def readCompound (decimals totalSupply totalBorrow balance : Nat)
    (name chain : String) : ProtocolResultW :=
  let d := 10 ^ decimals
  let claimedUSD := totalSupply / d
  let actualUSD := (balance + totalBorrow) / d
  let ratio : ℚ :=
    if claimedUSD > 0 then (actualUSD * 10000 : ℚ) / (claimedUSD : ℚ) else 10000
  let utilizationBps :=
    if claimedUSD > 0 then (totalBorrow / d) * 10000 / claimedUSD else 0
  { name := name, protocolType := "compound", chain := chain,
    claimed := claimedUSD, actual := actualUSD, solvencyRatioBps := ratio,
    utilizationBps := utilizationBps }

/-- `readLido` from main.ts, as a function of the raw reads (total pooled
ether, stETH total supply).  Utilization is the unbacking delta proxy. -/
def readLido (decimals pooledEther totalStETH : Nat)
    (name chain : String) : ProtocolResultW :=
  let d := 10 ^ decimals
  let claimedETH := totalStETH / d
  let actualETH := pooledEther / d
  let ratio : ℚ :=
    if claimedETH > 0 then (actualETH * 10000 : ℚ) / (claimedETH : ℚ) else 10000
  let utilizationBps : Nat :=
    if ratio ≥ 10000 then 0 else (Int.floor ((10000 : ℚ) - ratio)).toNat
  { name := name, protocolType := "lido", chain := chain,
    claimed := claimedETH, actual := actualETH, solvencyRatioBps := ratio,
    utilizationBps := utilizationBps }

/-- `readERC4626` from main.ts, as a function of the raw reads (total
assets, share total supply).  No utilization signal. -/
def readERC4626 (decimals totalAssets totalShares : Nat)
    (name chain : String) : ProtocolResultW :=
  let d := 10 ^ decimals
  let claimedUSD := totalShares / d
  let actualUSD := totalAssets / d
  let ratio : ℚ :=
    if claimedUSD > 0 then (actualUSD * 10000 : ℚ) / (claimedUSD : ℚ) else 10000
  { name := name, protocolType := "erc4626", chain := chain,
    claimed := claimedUSD, actual := actualUSD, solvencyRatioBps := ratio,
    utilizationBps := 0 }

-- ━━━━━━━━━━━━━━━━━━━━━━━━━━━━━━━━━━━━━━━━━━━━━━━
-- healthcheck/main.ts — velocity and risk scoring
-- ━━━━━━━━━━━━━━━━━━━━━━━━━━━━━━━━━━━━━━━━━━━━━━━

/-- The per-protocol velocity record (interface `VelocityResult` in
main.ts). -/
structure VelocityResult where
  name : String
  currentUtilBps : Nat
  prevUtilBps : Nat
  velocityBps : Nat
  velocityNegative : Bool
  isAlert : Bool
deriving Repr, DecidableEq

/-- Body of the `calculateVelocities` map for one protocol paired with its
previous utilization. -/
def calculateVelocity (isFirstRun : Bool) (result : ProtocolResultW)
    (prev : Nat) : VelocityResult :=
  let currentBps := result.utilizationBps
  let prevBps := prev
  let delta : Int := (currentBps : Int) - (prevBps : Int)
  let velocityBps := if isFirstRun then 0 else delta.natAbs
  let velocityNegative := decide (delta < 0)
  let isAlert := !isFirstRun && decide (velocityBps ≥ VELOCITY_ALERT_THRESHOLD)
  { name := result.name, currentUtilBps := currentBps, prevUtilBps := prevBps,
    velocityBps := velocityBps, velocityNegative := velocityNegative,
    isAlert := isAlert }

/-- `calculateVelocities(results, previousUtils, isFirstRun)` from main.ts.
The source indexes `previousUtils[i]` inside a map over `results`; the
workflow only ever calls it with the two lists of equal length, for which
the pairwise zip is the same function. -/
def calculateVelocities (results : List ProtocolResultW)
    (previousUtils : List Nat) (isFirstRun : Bool) : List VelocityResult :=
  List.zipWith (calculateVelocity isFirstRun) results previousUtils

/-- First-run detection in `healthCheckWorkflow`: the baselines read from
the oracle are all the sentinel zero. -/
def firstRunDetect (previousUtils : List Nat) : Bool :=
  previousUtils.all fun v => v == 0

/-- Per-protocol solvency contribution to the risk score in
`healthCheckWorkflow` (the three stacking threshold additions). -/
def solvencyRisk (r : ProtocolResultW) : Nat :=
  (if r.solvencyRatioBps < 9500 then 15 else 0) +
  (if r.solvencyRatioBps < 9000 then 10 else 0) +
  (if r.solvencyRatioBps < 8000 then 10 else 0)

/-- Per-protocol velocity contribution to the risk score in
`healthCheckWorkflow` (increase vs decrease branches). -/
def velocityRisk (v : VelocityResult) : Nat :=
  if v.velocityBps ≥ VELOCITY_ALERT_THRESHOLD ∧ v.velocityNegative = false then
    15 + (if v.velocityBps ≥ VELOCITY_ALERT_THRESHOLD * 3 then 20 else 0)
  else if v.velocityBps ≥ VELOCITY_ALERT_THRESHOLD ∧ v.velocityNegative = true then
    10
  else 0

/-- The risk-score accumulation of `healthCheckWorkflow` step 6: solvency
loop, velocity loop (skipped entirely on a first run), cross-reference
risk, then the clamp at 100. -/
def riskScoreOf (results : List ProtocolResultW)
    (velocities : List VelocityResult) (isFirstRun : Bool)
    (crossRefRisk : Nat) : Nat :=
  let s1 := results.foldl (fun acc r => acc + solvencyRisk r) 0
  let s2 :=
    if isFirstRun then s1
    else velocities.foldl (fun acc v => acc + velocityRisk v) s1
  let s3 := s2 + crossRefRisk
  if s3 > 100 then 100 else s3

/-- The worst-solvency fold of `healthCheckWorkflow` step 6, starting from
10000. -/
def worstSolvencyOf (results : List ProtocolResultW) : ℚ :=
  results.foldl
    (fun w r => if r.solvencyRatioBps < w then r.solvencyRatioBps else w) 10000

/-- The severity classification of `healthCheckWorkflow` step 6
(0 = HEALTHY, 1 = WARNING, 2 = CRITICAL). -/
def classifySeverity (riskScore : Nat) (worstSolvency : ℚ) : Nat :=
  if riskScore < 30 ∧ worstSolvency ≥ 9500 then 0
  else if riskScore < 60 ∧ worstSolvency ≥ 9000 then 1
  else 2

-- ━━━━━━━━━━━━━━━━━━━━━━━━━━━━━━━━━━━━━━━━━━━━━━━
-- Concrete inputs used by counterexamples and witnesses
-- ━━━━━━━━━━━━━━━━━━━━━━━━━━━━━━━━━━━━━━━━━━━━━━━

/-- A register, deregister, register-again history by one address: the
guard pushes the address onto the registered list twice. -/
def reRegisterTrace : List GuardCall :=
  [GuardCall.register 1 ["Aave V3 USDC (Ethereum)"] 0,
   GuardCall.deregister 1,
   GuardCall.register 1 ["Aave V3 USDC (Ethereum)"] 5]

/-- A history with a single register call: one slot, then deactivated. -/
def singleRegisterTrace : List GuardCall :=
  [GuardCall.register 1 ["Aave"] 0, GuardCall.deregister 1]

/-- A healthy protocol result with utilization 600 bps (6 percent) and no
stored baseline. -/
def freshUtilResult : ProtocolResultW :=
  { name := "A", protocolType := "aave", chain := "ethereum-mainnet",
    claimed := 100, actual := 100, solvencyRatioBps := 10000,
    utilizationBps := 600 }

/-- A healthy protocol result with utilization 800 bps whose baseline is
already stored. -/
def seasonedUtilResult : ProtocolResultW :=
  { name := "B", protocolType := "aave", chain := "ethereum-mainnet",
    claimed := 100, actual := 100, solvencyRatioBps := 10000,
    utilizationBps := 800 }

/-- The two-protocol batch for the velocity counterexample. -/
def mixedBatch : List ProtocolResultW := [freshUtilResult, seasonedUtilResult]

/-- Baselines for the batch: protocol A has never been recorded (the
sentinel 0), protocol B has a stored 1000 bps baseline. -/
def mixedPrevUtils : List Nat := [0, 1000]

/-- The velocities the workflow computes for the mixed batch. -/
def mixedVelocities : List VelocityResult :=
  calculateVelocities mixedBatch mixedPrevUtils (firstRunDetect mixedPrevUtils)

/-- A report carrying check number 2, recorded after `reportA`. -/
def reportC : HealthReport :=
  { totalReservesUSD := 90, totalClaimedUSD := 100, globalRatioBps := 9000,
    riskScore := 25, timestamp := 30, checkNumber := 2, severity := 1,
    anomalyDetected := false }

/-- First aggregate report carrying check number 1. -/
def reportA : HealthReport :=
  { totalReservesUSD := 100, totalClaimedUSD := 100, globalRatioBps := 10000,
    riskScore := 0, timestamp := 10, checkNumber := 1, severity := 0,
    anomalyDetected := false }

/-- A second, different aggregate report also carrying check number 1. -/
def reportB : HealthReport :=
  { totalReservesUSD := 50, totalClaimedUSD := 100, globalRatioBps := 5000,
    riskScore := 99, timestamp := 20, checkNumber := 1, severity := 2,
    anomalyDetected := true }

/-- A guard deployed by address 7 with a consumer (address 3) registered
watching "Aave". -/
def registeredGuardExample : GuardState :=
  execG (initGuard 7) (register (initGuard 7) 3 ["Aave"] 1)

/-- The registered guard after the oracle paused protocol "Aave" at
solvency 8000. -/
def protocolPausedGuardExample : GuardState :=
  execG registeredGuardExample
    (updateProtocolStatus registeredGuardExample 0 "Aave" 8000 1 2)

/-- A guard in global CRITICAL pause with protocol "Aave" also paused at
solvency 8000. -/
def pausedGuardExample : GuardState :=
  execG (execG (initGuard 7) (updateGlobalStatus (initGuard 7) 0 2 11))
    (updateProtocolStatus
      (execG (initGuard 7) (updateGlobalStatus (initGuard 7) 0 2 11))
      0 "Aave" 8000 1 12)

-- ━━━━━━━━━━━━━━━━━━━━━━━━━━━━━━━━━━━━━━━━━━━━━━━
-- Claim theorems
-- ━━━━━━━━━━━━━━━━━━━━━━━━━━━━━━━━━━━━━━━━━━━━━━━

/-- C1: after the guard applies a cycle's updates, the global pause tracks
severity exactly and the per-protocol pause tracks solvency exactly.  For
every state and severity `sev`, the oracle call `updateGlobalStatus sev`
succeeds and leaves `globalPaused = true` iff `sev = 2`; a later oracle
call with lower severity resets `globalPaused` to `false`; and for every
protocol name, solvency `v` and check number, after `updateProtocolStatus`
that protocol's `paused` flag is `true` iff `v < 9000`. -/
theorem C1_pause_tracks_severity_and_solvency (s : GuardState) (sev ts : Nat)
    (name : String) (v n tsp : Nat) :
    ∃ s1, updateGlobalStatus s s.oracle sev ts = Except.ok s1 ∧
      (s1.globalPaused = true ↔ sev = 2) ∧
      s1.currentSeverity = sev ∧
      (∀ sev2 ts2, sev2 < 2 →
        ∃ s2, updateGlobalStatus s1 s1.oracle sev2 ts2 = Except.ok s2 ∧
          s2.globalPaused = false) ∧
      ∃ sp, updateProtocolStatus s s.oracle name v n tsp = Except.ok sp ∧
        ((sp.protocolStatus name).paused = true ↔ v < 9000) := by
  have hmain : ∀ t : GuardState, ∀ sv tt : Nat,
      ∃ s1, updateGlobalStatus t t.oracle sv tt = Except.ok s1 ∧
        s1.globalPaused = (sv == 2) ∧ s1.currentSeverity = sv ∧
        s1.oracle = t.oracle := by
    intro t sv tt
    unfold updateGlobalStatus
    rw [if_neg (fun h => h rfl)]
    dsimp only
    split <;> exact ⟨_, rfl, rfl, rfl, rfl⟩
  obtain ⟨s1, h1, hp1, hc1, ho1⟩ := hmain s sev ts
  refine ⟨s1, h1, ?_, hc1, ?_, ?_⟩
  · rw [hp1]; simp
  · intro sev2 ts2 hlt
    obtain ⟨s2, h2, hp2, _, _⟩ := hmain s1 sev2 ts2
    refine ⟨s2, h2, ?_⟩
    have hne : sev2 ≠ 2 := by omega
    simp [hp2, hne]
  · unfold updateProtocolStatus
    rw [if_neg (fun h => h rfl)]
    dsimp only
    split
    · refine ⟨_, rfl, ?_⟩
      simp [SOLVENCY_PAUSE_THRESHOLD]
    · refine ⟨_, rfl, ?_⟩
      simp [SOLVENCY_PAUSE_THRESHOLD]

/-- C1 witness: from a fresh guard, an oracle update with severity 2 pauses
globally, a following severity-0 update unpauses, and a protocol update at
solvency 8999 pauses that protocol. -/
theorem C1_witness :
    (0 : Nat) < 2 ∧
    ∃ s1, updateGlobalStatus (initGuard 7) (initGuard 7).oracle 2 11 = Except.ok s1 ∧
      s1.globalPaused = true ∧
      ∃ s2, updateGlobalStatus s1 s1.oracle 0 12 = Except.ok s2 ∧
        s2.globalPaused = false := by
  obtain ⟨s1, h1, hp1, _, hnext, _⟩ :=
    C1_pause_tracks_severity_and_solvency (initGuard 7) 2 11 "Aave" 8999 1 11
  obtain ⟨s2, h2, hp2⟩ := hnext 0 12 (by decide)
  exact ⟨by decide, s1, h1, hp1.mpr rfl, s2, h2, hp2⟩

/-- C2: `isSafe` is a total function that reads `true` for every address
that is not actively registered, in every guard state (including during a
global CRITICAL pause), and for an actively registered address reads
`false` exactly when the global pause is active or some protocol on its
watch-list is individually paused. -/
theorem C2_isSafe_fail_open (s : GuardState) (a : Addr) :
    ((s.registrations a).active = false → isSafe s a = true) ∧
    ((s.registrations a).active = true →
      (isSafe s a = false ↔ (s.globalPaused = true ∨
        ∃ p ∈ (s.registrations a).watchedProtocols,
          (s.protocolStatus p).paused = true))) := by
  constructor
  · intro h
    simp [isSafe, h]
  · intro h
    by_cases hg : s.globalPaused
    · simp [isSafe, h, hg]
    · simp [isSafe, h, hg, List.any_eq_true]

/-- C2 witness: a freshly deployed guard put into global CRITICAL pause
still reads safe for the unregistered address 5, while a registered
address watching a paused protocol reads unsafe. -/
theorem C2_witness :
    isSafe (execG (initGuard 7) (updateGlobalStatus (initGuard 7) 0 2 11)) 5 = true ∧
    isSafe protocolPausedGuardExample 3 = false := by
  constructor
  · exact (C2_isSafe_fail_open _ 5).1 (by decide)
  · refine ((C2_isSafe_fail_open protocolPausedGuardExample 3).2 (by decide)).mpr ?_
    exact Or.inr ⟨"Aave", by decide, by decide⟩

/-- C9: manual unpause touches only the pause flag it names.  For a
non-empty protocol name the owner call clears only that protocol's `paused`
flag, preserving its `warning`, `solvency`, `lastCheckNumber` and
`lastUpdated`, every other protocol's status, `globalPaused` and
`currentSeverity`; for the empty name the call produces exactly the old
state with `globalPaused := false`, so `currentSeverity` can still read 2
while `isGloballyPaused` reads `false`. -/
theorem C9_manualUnpause_frame (s : GuardState) (name : String) :
    (name ≠ "" →
      ∃ s1, manualUnpause s s.owner name = Except.ok s1 ∧
        (s1.protocolStatus name).paused = false ∧
        (s1.protocolStatus name).warning = (s.protocolStatus name).warning ∧
        (s1.protocolStatus name).solvency = (s.protocolStatus name).solvency ∧
        (s1.protocolStatus name).lastCheckNumber = (s.protocolStatus name).lastCheckNumber ∧
        (s1.protocolStatus name).lastUpdated = (s.protocolStatus name).lastUpdated ∧
        (∀ other, other ≠ name → s1.protocolStatus other = s.protocolStatus other) ∧
        s1.globalPaused = s.globalPaused ∧
        s1.currentSeverity = s.currentSeverity ∧
        s1.registrations = s.registrations ∧
        s1.registeredList = s.registeredList ∧
        s1.totalPauseEvents = s.totalPauseEvents) ∧
    (manualUnpause s s.owner "" = Except.ok { s with globalPaused := false } ∧
      isGloballyPaused { s with globalPaused := false } = false ∧
      GuardState.currentSeverity { s with globalPaused := false } = s.currentSeverity) := by
  constructor
  · intro hname
    have hok : manualUnpause s s.owner name = Except.ok
        { s with protocolStatus := fun n =>
            if n = name then { s.protocolStatus name with paused := false }
            else s.protocolStatus n } := by
      unfold manualUnpause
      rw [if_neg (fun h => h rfl), if_neg hname]
    refine ⟨_, hok, ?_, ?_, ?_, ?_, ?_, ?_, rfl, rfl, rfl, rfl, rfl⟩
    · simp
    · simp
    · simp
    · simp
    · simp
    · intro other hother
      simp [hother]
  · have hok : manualUnpause s s.owner "" = Except.ok { s with globalPaused := false } := by
      unfold manualUnpause
      rw [if_neg (fun h => h rfl), if_pos rfl]
    exact ⟨hok, rfl, rfl⟩

/-- C9 witness: on a concrete critically paused state with protocol "Aave"
paused at solvency 8000, unpausing "Aave" clears only its paused flag, and
unpausing the empty name clears only the global pause while severity still
reads 2. -/
theorem C9_witness :
    ∃ s1, manualUnpause pausedGuardExample pausedGuardExample.owner "Aave"
        = Except.ok s1 ∧
      (s1.protocolStatus "Aave").paused = false ∧
      (s1.protocolStatus "Aave").solvency = 8000 ∧
      s1.globalPaused = true ∧
      s1.currentSeverity = 2 := by
  obtain ⟨h1, _⟩ := C9_manualUnpause_frame pausedGuardExample "Aave"
  obtain ⟨s1, hok, hpaused, _, hsolv, _, _, _, hglob, hsev, _, _, _⟩ :=
    h1 (by decide)
  refine ⟨s1, hok, hpaused, ?_, ?_, ?_⟩
  · rw [hsolv]; decide
  · rw [hglob]; decide
  · rw [hsev]; decide

/-- A register call either leaves the registered list unchanged (revert or
already-active sender) or appends exactly the sender. -/
theorem register_list_cases (s : GuardState) (sender : Addr)
    (watched : List String) (ts : Nat) :
    (applyCall s (GuardCall.register sender watched ts)).registeredList
        = s.registeredList ∨
    (applyCall s (GuardCall.register sender watched ts)).registeredList
        = s.registeredList ++ [sender] := by
  unfold applyCall register execG
  dsimp only
  by_cases hlen : watched.length > 10
  · rw [if_pos hlen]
    left; rfl
  · rw [if_neg hlen]
    by_cases hact : (!(s.registrations sender).active) = true
    · rw [if_pos hact]
      right; rfl
    · rw [if_neg hact]
      left; rfl

/-- A deregister call never touches the registered list. -/
theorem deregister_list (s : GuardState) (sender : Addr) :
    (applyCall s (GuardCall.deregister sender)).registeredList
      = s.registeredList := by
  unfold applyCall deregister execG
  dsimp only
  by_cases hact : (!(s.registrations sender).active) = true
  · rw [if_pos hact]
  · rw [if_neg hact]

/-- One guard call appends at most the register sender to the registered
list: the count of any address grows by at most its register-call
indicator. -/
theorem count_applyCall (s : GuardState) (c : GuardCall) (a : Addr) :
    (applyCall s c).registeredList.count a ≤
      s.registeredList.count a +
        (match c with
         | GuardCall.register sender _ _ => if sender = a then 1 else 0
         | GuardCall.deregister _ => 0) := by
  cases c with
  | register sender watched ts =>
    rcases register_list_cases s sender watched ts with h | h
    · rw [h]
      exact Nat.le_add_right _ _
    · rw [h, List.count_append, List.count_singleton']
  | deregister sender =>
    rw [deregister_list]
    exact Nat.le_add_right _ _

/-- The register-call indicator of the head of a history. -/
theorem registerCallsBy_cons (c : GuardCall) (cs : List GuardCall) (a : Addr) :
    registerCallsBy (c :: cs) a =
      (match c with
       | GuardCall.register sender _ _ => if sender = a then 1 else 0
       | GuardCall.deregister _ => 0) + registerCallsBy cs a := by
  cases c with
  | register sender watched ts =>
    simp only [registerCallsBy, List.filter_cons]
    by_cases h : sender = a
    · simp [h]
      omega
    · simp [h]
  | deregister sender =>
    simp [registerCallsBy, List.filter_cons]

/-- Across a whole history, an address appears in the registered list at
most as often as it was there before plus the number of register calls it
made. -/
theorem count_runCalls (cs : List GuardCall) : ∀ (s : GuardState) (a : Addr),
    (runCalls s cs).registeredList.count a ≤
      s.registeredList.count a + registerCallsBy cs a := by
  induction cs with
  | nil =>
    intro s a
    simp [runCalls, registerCallsBy]
  | cons c cs ih =>
    intro s a
    have h1 := count_applyCall s c a
    have h2 := ih (applyCall s c) a
    have h3 := registerCallsBy_cons c cs a
    have hrun : runCalls s (c :: cs) = runCalls (applyCall s c) cs := rfl
    rw [hrun, h3]
    omega

/-- Counting a value in a filtered list never exceeds counting it in the
original list. -/
theorem count_filter_le (p : Addr → Bool) (l : List Addr) (a : Addr) :
    (l.filter p).count a ≤ l.count a := by
  induction l with
  | nil => simp
  | cons b l ih =>
    rw [List.filter_cons]
    by_cases hab : (b == a) = true
    · by_cases hb : p b
      · rw [if_pos hb, List.count_cons, List.count_cons, if_pos hab]
        omega
      · rw [if_neg hb, List.count_cons, if_pos hab]
        omega
    · by_cases hb : p b
      · rw [if_pos hb, List.count_cons, List.count_cons, if_neg hab]
        omega
      · rw [if_neg hb, List.count_cons, if_neg hab]
        omega

/-- C10 (amended): `register` pushes an address onto the guard's internal
registered list once per activation (a register call made while the
address is not active); in any history of register and deregister calls
from a fresh guard in which each address issues at most one register call,
each address occupies at most one slot, and the affected-registrant count
computed when a protocol transitions into paused counts each
currently-active registrant watching that protocol at most once — every
counted slot holds an active registrant whose watch-list contains the
protocol.  (After a deregister and a new register the same address
occupies two slots and is counted twice, see the counterexample.) -/
theorem C10_registered_list_slots (deployer : Addr) (cs : List GuardCall)
    (name : String) (h : ∀ a, registerCallsBy cs a ≤ 1) :
    (∀ a, (runCalls (initGuard deployer) cs).registeredList.count a ≤ 1) ∧
    (∀ a, (affectedWatchers (runCalls (initGuard deployer) cs) name).count a ≤ 1) ∧
    countAffected (runCalls (initGuard deployer) cs) name
      = (affectedWatchers (runCalls (initGuard deployer) cs) name).length ∧
    (∀ a ∈ affectedWatchers (runCalls (initGuard deployer) cs) name,
      ((runCalls (initGuard deployer) cs).registrations a).active = true ∧
      name ∈ ((runCalls (initGuard deployer) cs).registrations a).watchedProtocols) := by
  have hcount : ∀ a, (runCalls (initGuard deployer) cs).registeredList.count a ≤ 1 := by
    intro a
    have h1 := count_runCalls cs (initGuard deployer) a
    have h2 : (initGuard deployer).registeredList.count a = 0 := by
      simp [initGuard]
    have h3 := h a
    omega
  refine ⟨hcount, ?_, rfl, ?_⟩
  · intro a
    exact le_trans (count_filter_le _ _ a) (hcount a)
  · intro a ha
    rw [affectedWatchers, List.mem_filter] at ha
    obtain ⟨-, hp⟩ := ha
    rw [Bool.and_eq_true] at hp
    obtain ⟨hactive, hwatch⟩ := hp
    refine ⟨hactive, ?_⟩
    rw [List.any_eq_true] at hwatch
    obtain ⟨w, hw, hwname⟩ := hwatch
    rw [beq_iff_eq] at hwname
    rwa [hwname] at hw

/-- C10 witness: a register followed by a deregister is a history with at
most one register call per address, and indeed address 1 then occupies at
most one slot. -/
theorem C10_witness :
    (∀ a, registerCallsBy singleRegisterTrace a ≤ 1) ∧
    (runCalls (initGuard 0) singleRegisterTrace).registeredList.count 1 ≤ 1 := by
  have h : ∀ a, registerCallsBy singleRegisterTrace a ≤ 1 := by
    intro a
    simp only [singleRegisterTrace, registerCallsBy, List.filter_cons]
    by_cases h1 : ((1 : Addr) == a) = true
    · simp [h1, List.filter]
    · simp [h1, List.filter]
  exact ⟨h, (C10_registered_list_slots 0 singleRegisterTrace "Aave" h).1 1⟩

/-- C10 counterexample: address 1 registers, deregisters and registers
again; it then occupies two slots of the registered list while only one
active registration exists, and the affected-registrant count for the
watched protocol reports 2 instead of 1. -/
theorem C10_counterexample :
    (runCalls (initGuard 0) reRegisterTrace).registeredList.count 1 = 2 ∧
    countAffected (runCalls (initGuard 0) reRegisterTrace)
      "Aave V3 USDC (Ethereum)" = 2 ∧
    (runCalls (initGuard 0) reRegisterTrace).totalRegisteredCount = 1 := by
  refine ⟨?_, ?_, ?_⟩ <;> decide

/-- Recording a report leaves the slot of every other check number
untouched. -/
theorem processReport_reports_other (s : OracleState) (r : HealthReport)
    (n : Nat) (hn : r.checkNumber ≠ n) :
    (processReport s r).reports n = s.reports n := by
  have hn2 : ¬(n = r.checkNumber) := fun hh => hn hh.symm
  unfold processReport
  dsimp only
  split_ifs <;> simp [hn2]

/-- Recording a report appends exactly that report to the history. -/
theorem processReport_history (s : OracleState) (r : HealthReport) :
    (processReport s r).reportHistory = s.reportHistory ++ [r] := by
  unfold processReport
  dsimp only
  split_ifs <;> rfl

/-- Recording a report increments the check counter by one. -/
theorem processReport_totalChecks (s : OracleState) (r : HealthReport) :
    (processReport s r).totalChecks = s.totalChecks + 1 := by
  unfold processReport
  dsimp only
  split_ifs <;> rfl

/-- The latest report after recording is the recorded report. -/
theorem processReport_latest (s : OracleState) (r : HealthReport) :
    (processReport s r).latestReport = r := by
  unfold processReport
  dsimp only
  split_ifs <;> rfl

/-- C6: a per-protocol batch write whose parallel arrays have mismatched
lengths, or whose batch is empty, reverts and mutates no ledger state:
the call returns an error and the post-call state (under revert semantics)
is exactly the pre-call state, every component included. -/
theorem C6_malformed_batch_reverts (s : OracleState) (caller : Addr)
    (checkNumber : Nat) (names types chains : List String)
    (claimed actual solvencyRatios utilizations velocityBps : List Nat)
    (velocityNegative : List Bool) (ts : Nat)
    (h : names.length = 0 ∨ types.length ≠ names.length ∨
      chains.length ≠ names.length ∨ claimed.length ≠ names.length ∨
      actual.length ≠ names.length ∨ solvencyRatios.length ≠ names.length ∨
      utilizations.length ≠ names.length ∨ velocityBps.length ≠ names.length ∨
      velocityNegative.length ≠ names.length) :
    (∃ e, submitProtocolData s caller checkNumber names types chains claimed
      actual solvencyRatios utilizations velocityBps velocityNegative ts
        = Except.error e) ∧
    execO s (submitProtocolData s caller checkNumber names types chains claimed
      actual solvencyRatios utilizations velocityBps velocityNegative ts) = s := by
  have herr : ∃ e, submitProtocolData s caller checkNumber names types chains
      claimed actual solvencyRatios utilizations velocityBps velocityNegative ts
        = Except.error e := by
    unfold submitProtocolData
    by_cases hauth : ¬(caller = s.reporter ∨ caller = s.owner)
    · rw [if_pos hauth]
      exact ⟨_, rfl⟩
    · rw [if_neg hauth]
      dsimp only
      by_cases h0 : names.length = 0
      · rw [if_pos h0]
        exact ⟨_, rfl⟩
      · rw [if_neg h0]
        have hmis : ¬(types.length = names.length ∧ chains.length = names.length ∧
            claimed.length = names.length ∧ actual.length = names.length ∧
            solvencyRatios.length = names.length ∧ utilizations.length = names.length ∧
            velocityBps.length = names.length ∧ velocityNegative.length = names.length) := by
          rcases h with h | h | h | h | h | h | h | h | h
          · exact absurd h h0
          all_goals exact fun hc => h (by tauto)
        rw [if_pos hmis]
        exact ⟨_, rfl⟩
  obtain ⟨e, he⟩ := herr
  refine ⟨⟨e, he⟩, ?_⟩
  rw [he]
  rfl

/-- C6 witness: a batch with one name but an empty types array reverts on
a fresh ledger and leaves it untouched. -/
theorem C6_witness :
    ([] : List String).length ≠ (["A"] : List String).length ∧
    (∃ e, submitProtocolData (initOracle 0 0) 0 1 ["A"] [] ["E"] [1] [1]
      [10000] [0] [0] [false] 5 = Except.error e) ∧
    execO (initOracle 0 0) (submitProtocolData (initOracle 0 0) 0 1 ["A"] []
      ["E"] [1] [1] [10000] [0] [0] [false] 5) = initOracle 0 0 := by
  have h := C6_malformed_batch_reverts (initOracle 0 0) 0 1 ["A"] [] ["E"]
    [1] [1] [10000] [0] [0] [false] 5 (Or.inr (Or.inl (by decide)))
  exact ⟨by decide, h.1, h.2⟩

/-- C7 counterexample: `_processReport` does not assign check numbers and
does not keep stored reports immutable.  Processing `reportA` (check
number 1) and then `reportB`, which also carries check number 1, overwrites
the report stored under 1 — its risk score changes from 0 to 99 — even
though the ledger already counted one check, so the second cycle should
have been stored under 2 by the claim. -/
theorem C7_counterexample :
    reportA.checkNumber = 1 ∧ reportB.checkNumber = 1 ∧
    (processReport (initOracle 0 0) reportA).totalChecks = 1 ∧
    ((processReport (initOracle 0 0) reportA).reports 1).riskScore = 0 ∧
    ((processReport (processReport (initOracle 0 0) reportA) reportB).reports 1).riskScore
      = 99 ∧
    (processReport (processReport (initOracle 0 0) reportA) reportB).reports 1
      = reportB := by
  refine ⟨rfl, rfl, ?_, ?_, ?_, ?_⟩ <;> decide

/-- C7 (amended): `_processReport` stores an aggregate report under the
check number the report itself carries and appends it to the append-only
history, incrementing `totalChecks`; the report stored under a check
number `n` is unchanged by any sequence of later recorded cycles whose
reports carry check numbers different from `n` (callers following the
`totalChecks + 1` convention, as the simulate entry points do, always
satisfy this); the simulate entry point assigns check number
`totalChecks + 1`. -/
theorem C7_reports_immutable_unless_replayed (s : OracleState)
    (rs : List HealthReport) (n : Nat)
    (h : ∀ r ∈ rs, r.checkNumber ≠ n) :
    (rs.foldl processReport s).reports n = s.reports n ∧
    (∃ t, (rs.foldl processReport s).reportHistory = s.reportHistory ++ t) ∧
    (rs.foldl processReport s).totalChecks = s.totalChecks + rs.length ∧
    (∀ ts, (simulateHealthy s ts).latestReport.checkNumber = s.totalChecks + 1) := by
  have hsim : ∀ (t : OracleState) (ts : Nat),
      (simulateHealthy t ts).latestReport.checkNumber = t.totalChecks + 1 := by
    intro t ts
    rw [simulateHealthy, processReport_latest]
  induction rs generalizing s with
  | nil =>
    exact ⟨rfl, ⟨[], by simp⟩, by simp, hsim s⟩
  | cons r rs ih =>
    have hr : r.checkNumber ≠ n := h r (List.mem_cons_self r rs)
    have hrest : ∀ r2 ∈ rs, r2.checkNumber ≠ n :=
      fun r2 hr2 => h r2 (List.mem_cons_of_mem r hr2)
    obtain ⟨ihrep, ⟨t, iht⟩, ihchecks, -⟩ := ih (processReport s r) hrest
    refine ⟨?_, ⟨[r] ++ t, ?_⟩, ?_, hsim s⟩
    · rw [List.foldl_cons, ihrep, processReport_reports_other s r n hr]
    · rw [List.foldl_cons, iht, processReport_history]
      simp
    · rw [List.foldl_cons, ihchecks, processReport_totalChecks]
      simp [Nat.add_assoc, Nat.add_comm 1 rs.length]

/-- C7 witness: after recording `reportA` under check number 1, recording
`reportC` (check number 2) leaves the report stored under 1 unchanged. -/
theorem C7_witness :
    (∀ r ∈ [reportC], r.checkNumber ≠ 1) ∧
    ([reportC].foldl processReport (processReport (initOracle 0 0) reportA)).reports 1
      = (processReport (initOracle 0 0) reportA).reports 1 := by
  have h : ∀ r ∈ [reportC], r.checkNumber ≠ 1 := by
    intro r hr
    rw [List.mem_singleton] at hr
    rw [hr]
    decide
  exact ⟨h, (C7_reports_immutable_unless_replayed
    (processReport (initOracle 0 0) reportA) [reportC] 1 h).1⟩

/-- Every element of a zipWith is the image of a pair of elements. -/
theorem exists_of_mem_zipWith {α β γ : Type} {f : α → β → γ} :
    ∀ {l1 : List α} {l2 : List β} {c : γ},
      c ∈ List.zipWith f l1 l2 → ∃ a b, c = f a b := by
  intro l1
  induction l1 with
  | nil =>
    intro l2 c hc
    simp at hc
  | cons a l1 ih =>
    intro l2 c hc
    cases l2 with
    | nil => simp at hc
    | cons b l2 =>
      rw [List.zipWith_cons_cons, List.mem_cons] at hc
      rcases hc with hc | hc
      · exact ⟨a, b, hc⟩
      · exact ih hc

/-- An accumulating foldl of additions is the initial value plus the sum
of the mapped list. -/
theorem foldl_add_sum {α : Type} (f : α → Nat) (l : List α) :
    ∀ init : Nat, l.foldl (fun acc x => acc + f x) init = init + (l.map f).sum := by
  induction l with
  | nil => intro init; simp
  | cons a l ih =>
    intro init
    rw [List.foldl_cons, ih, List.map_cons, List.sum_cons]
    omega

/-- The clamp at 100 used by the workflow is the minimum with 100. -/
theorem clamp_eq_min (n : Nat) : (if n > 100 then 100 else n) = min 100 n := by
  rcases Nat.lt_or_ge 100 n with h | h
  · rw [if_pos h, Nat.min_eq_left (Nat.le_of_lt h)]
  · rw [if_neg (Nat.not_lt.mpr h), Nat.min_eq_right h]

/-- The worst-solvency fold is bounded by its starting value and by every
element of the batch. -/
theorem worst_fold_le (l : List ProtocolResultW) : ∀ w : ℚ,
    (l.foldl (fun w r => if r.solvencyRatioBps < w then r.solvencyRatioBps else w) w ≤ w) ∧
    (∀ r ∈ l,
      l.foldl (fun w r => if r.solvencyRatioBps < w then r.solvencyRatioBps else w) w
        ≤ r.solvencyRatioBps) := by
  induction l with
  | nil =>
    intro w
    constructor
    · simp
    · intro r hr
      simp at hr
  | cons b l ih =>
    intro w
    have hstep : (if b.solvencyRatioBps < w then b.solvencyRatioBps else w) ≤ w := by
      split
      · exact le_of_lt (by assumption)
      · exact le_refl w
    have hstepb : (if b.solvencyRatioBps < w then b.solvencyRatioBps else w)
        ≤ b.solvencyRatioBps := by
      split
      · exact le_refl _
      · exact le_of_not_lt (by assumption)
    obtain ⟨ih1, ih2⟩ := ih (if b.solvencyRatioBps < w then b.solvencyRatioBps else w)
    refine ⟨le_trans ih1 hstep, ?_⟩
    intro r hr
    rw [List.mem_cons] at hr
    rcases hr with hr | hr
    · subst hr
      exact le_trans ih1 hstepb
    · exact ih2 r hr

/-- The risk-score fold decomposes into an order-independent clamped sum
of per-protocol solvency terms, per-protocol velocity terms (dropped on a
first run) and the cross-reference term. -/
theorem riskScore_decomp (results : List ProtocolResultW)
    (velocities : List VelocityResult) (fr : Bool) (cr : Nat) :
    riskScoreOf results velocities fr cr =
      min 100 ((results.map solvencyRisk).sum +
        (if fr then 0 else (velocities.map velocityRisk).sum) + cr) := by
  cases fr with
  | true =>
    simp only [riskScoreOf, if_true]
    rw [foldl_add_sum, clamp_eq_min]
    omega
  | false =>
    simp only [riskScoreOf, Bool.false_eq_true, if_false]
    rw [foldl_add_sum, foldl_add_sum, clamp_eq_min]
    omega

/-- C3 counterexample: the workflow suppresses velocity only when EVERY
previous utilization is the sentinel 0.  In a batch where protocol "A" has
no prior record (sentinel 0) but protocol "B" has a stored 1000 bps
baseline, the first-run flag is off and protocol "A" is scored: its
computed velocity is its full 600 bps utilization, `isAlert` is `true` and
it contributes 15 to the risk score, contradicting the claim that a
freshly-seeded baseline never reads as a velocity spike. -/
theorem C3_counterexample :
    firstRunDetect mixedPrevUtils = false ∧
    mixedPrevUtils = [0, 1000] ∧
    (mixedVelocities.map fun v => v.prevUtilBps) = [0, 1000] ∧
    (mixedVelocities.map fun v => v.isAlert) = [true, false] ∧
    mixedVelocities.map velocityRisk = [15, 0] ∧
    riskScoreOf mixedBatch mixedVelocities (firstRunDetect mixedPrevUtils) 0
      = 15 := by
  refine ⟨?_, ?_, ?_, ?_, ?_, ?_⟩ <;> decide

/-- C3 (amended): velocity suppression is keyed to the workflow's global
first-run flag, which is set exactly when every previous utilization in
the batch is the sentinel 0 (as on a fresh ledger, whose stored baselines
all read 0).  In that case every protocol in the batch has `isAlert =
false`, computed velocity 0 and velocity risk contribution 0, and the
cycle's risk score reduces to the solvency and cross-reference terms
alone.  A protocol whose own baseline is absent, in a batch where some
other protocol has a nonzero baseline, is scored normally. -/
theorem C3_first_run_suppression (results : List ProtocolResultW)
    (previousUtils : List Nat) (velocities : List VelocityResult)
    (crossRefRisk : Nat) (h : firstRunDetect previousUtils = true) :
    (∀ v ∈ calculateVelocities results previousUtils (firstRunDetect previousUtils),
      v.isAlert = false ∧ v.velocityBps = 0 ∧ velocityRisk v = 0) ∧
    riskScoreOf results velocities true crossRefRisk
      = min 100 ((results.map solvencyRisk).sum + crossRefRisk) ∧
    (∀ names : List String,
      firstRunDetect (getPreviousUtilizations (initOracle 0 0) names) = true) := by
  refine ⟨?_, ?_, ?_⟩
  · rw [h]
    intro v hv
    obtain ⟨a, b, hab⟩ := exists_of_mem_zipWith hv
    rw [hab]
    refine ⟨rfl, rfl, ?_⟩
    rw [velocityRisk]
    simp [calculateVelocity, VELOCITY_ALERT_THRESHOLD]
  · rw [riskScore_decomp]
    simp
  · intro names
    rw [firstRunDetect, getPreviousUtilizations]
    rw [List.all_eq_true]
    intro v hv
    rw [List.mem_map] at hv
    obtain ⟨n, -, hn⟩ := hv
    rw [← hn]
    rfl

/-- C3 witness: on the all-zero baseline [0, 0] the first-run flag is on
and both protocols of the batch are suppressed. -/
theorem C3_witness :
    firstRunDetect [0, 0] = true ∧
    (∀ v ∈ calculateVelocities mixedBatch [0, 0] (firstRunDetect [0, 0]),
      v.isAlert = false ∧ v.velocityBps = 0 ∧ velocityRisk v = 0) := by
  have h : firstRunDetect [0, 0] = true := by decide
  exact ⟨h, (C3_first_run_suppression mixedBatch [0, 0] [] 0 h).1⟩

/-- C4: severity is classified from the risk score and the worst
per-protocol solvency of the batch: HEALTHY (0) iff `riskScore < 30` and
`worst >= 9500`; otherwise WARNING (1) iff `riskScore < 60` and
`worst >= 9000`; otherwise CRITICAL (2).  The boundary cycle with risk
score exactly 30 and worst solvency exactly 9500 is WARNING, not HEALTHY.
The `worstSolvencyOf` fold is a lower bound of every solvency in the
batch (and of its 10000 start), i.e. the minimum, not the aggregate
ratio. -/
theorem C4_severity_classification (riskScore : Nat) (worstSolvency : ℚ)
    (results : List ProtocolResultW) :
    (classifySeverity riskScore worstSolvency = 0 ↔
      riskScore < 30 ∧ worstSolvency ≥ 9500) ∧
    (classifySeverity riskScore worstSolvency = 1 ↔
      ¬(riskScore < 30 ∧ worstSolvency ≥ 9500) ∧
        riskScore < 60 ∧ worstSolvency ≥ 9000) ∧
    (classifySeverity riskScore worstSolvency = 2 ↔
      ¬(riskScore < 30 ∧ worstSolvency ≥ 9500) ∧
        ¬(riskScore < 60 ∧ worstSolvency ≥ 9000)) ∧
    classifySeverity 30 9500 = 1 ∧
    (∀ r ∈ results, worstSolvencyOf results ≤ r.solvencyRatioBps) ∧
    worstSolvencyOf results ≤ 10000 := by
  obtain ⟨hle, hmem⟩ := worst_fold_le results 10000
  refine ⟨?_, ?_, ?_, by decide, hmem, hle⟩
  · rw [classifySeverity]
    split_ifs with h1 h2 <;> simp_all
  · rw [classifySeverity]
    split_ifs with h1 h2 <;> simp_all
  · rw [classifySeverity]
    split_ifs with h1 h2 <;> simp_all

/-- C4 witness: the boundary case risk 30 / worst 9500 classifies to
WARNING, a risk-29 cycle at worst solvency 9500 classifies to HEALTHY,
and on the concrete batch the fold is below both member solvencies. -/
theorem C4_witness :
    classifySeverity 30 9500 = 1 ∧
    classifySeverity 29 9500 = 0 ∧
    (freshUtilResult ∈ mixedBatch ∧
      worstSolvencyOf mixedBatch ≤ freshUtilResult.solvencyRatioBps) := by
  obtain ⟨h0, -, -, hb, hmem, -⟩ := C4_severity_classification 29 9500 mixedBatch
  refine ⟨hb, h0.mpr (by norm_num), ?_, hmem freshUtilResult (by decide)⟩
  decide

/-- When the claimed amount is positive the workflow ratio is the exact
rational quotient; its floor is the integer basis-point division and it
coincides with that integer exactly when the division is exact. -/
theorem ratio_cases (c a : Nat) :
    (c = 0 → (if c > 0 then (a * 10000 : ℚ) / (c : ℚ) else 10000) = 10000) ∧
    (0 < c →
      (if c > 0 then (a * 10000 : ℚ) / (c : ℚ) else 10000)
          = (a * 10000 : ℚ) / (c : ℚ) ∧
      Nat.floor (if c > 0 then (a * 10000 : ℚ) / (c : ℚ) else 10000)
          = a * 10000 / c ∧
      ((if c > 0 then (a * 10000 : ℚ) / (c : ℚ) else 10000)
          = ((a * 10000 / c : ℕ) : ℚ) ↔ c ∣ a * 10000)) := by
  constructor
  · intro hc
    rw [if_neg]
    omega
  · intro hc
    rw [if_pos hc]
    have hcast : ((a : ℚ) * 10000) = ((a * 10000 : ℕ) : ℚ) := by
      push_cast
      ring
    have hcne : ((c : ℚ)) ≠ 0 := Nat.cast_ne_zero.mpr (Nat.pos_iff_ne_zero.mp hc)
    refine ⟨rfl, ?_, ?_⟩
    · rw [hcast, Nat.floor_div_nat, Nat.floor_natCast]
    · rw [div_eq_iff hcne, hcast]
      constructor
      · intro h
        have hnat : a * 10000 / c * c = a * 10000 := by exact_mod_cast h.symm
        exact Dvd.intro_left _ hnat
      · intro h
        have hnat : a * 10000 / c * c = a * 10000 := Nat.div_mul_cancel h
        exact_mod_cast hnat.symm

/-- C5 counterexample: the workflow does not floor the solvency ratio.
For an aave pool with decimals 0, deposits 3, liquidity 1, borrows 0, the
computed ratio is the exact rational 10000/3, which differs from the
claimed integer value floor(actual*10000/claimed) = 3333. -/
theorem C5_counterexample :
    (readAave 0 3 1 0 "A" "E").claimed = 3 ∧
    (readAave 0 3 1 0 "A" "E").actual = 1 ∧
    (readAave 0 3 1 0 "A" "E").actual * 10000 / (readAave 0 3 1 0 "A" "E").claimed
      = 3333 ∧
    (readAave 0 3 1 0 "A" "E").solvencyRatioBps ≠ (3333 : ℚ) := by
  refine ⟨rfl, rfl, rfl, ?_⟩
  norm_num [readAave]

/-- C5 (amended): in every reader (aave, compound, lido, erc4626) the raw
amounts are floor-divided by `10 ^ decimals` before ratio math, and the
per-protocol solvency ratio is 10000 when the claimed amount is 0 (an
empty pool is defined healthy, never a divide-by-zero error); when the
claimed amount is positive the ratio is the exact (unfloored) rational
`actual * 10000 / claimed`, whose floor is the integer arithmetic value
`floor(actual*10000/claimed)` and which equals that integer exactly when
the division is exact. -/
theorem C5_solvency_ratio_semantics (decimals x y z : Nat) (name chain : String) :
    ((readAave decimals x y z name chain).claimed = x / 10 ^ decimals ∧
     (readAave decimals x y z name chain).actual = (y + z) / 10 ^ decimals ∧
     ((readAave decimals x y z name chain).claimed = 0 →
        (readAave decimals x y z name chain).solvencyRatioBps = 10000) ∧
     (0 < (readAave decimals x y z name chain).claimed →
        (readAave decimals x y z name chain).solvencyRatioBps
          = ((readAave decimals x y z name chain).actual * 10000 : ℚ)
              / ((readAave decimals x y z name chain).claimed : ℚ) ∧
        Nat.floor (readAave decimals x y z name chain).solvencyRatioBps
          = (readAave decimals x y z name chain).actual * 10000
              / (readAave decimals x y z name chain).claimed ∧
        ((readAave decimals x y z name chain).solvencyRatioBps
            = (((readAave decimals x y z name chain).actual * 10000
                / (readAave decimals x y z name chain).claimed : ℕ) : ℚ) ↔
          (readAave decimals x y z name chain).claimed ∣
            (readAave decimals x y z name chain).actual * 10000))) ∧
    ((readCompound decimals x y z name chain).claimed = x / 10 ^ decimals ∧
     (readCompound decimals x y z name chain).actual = (z + y) / 10 ^ decimals ∧
     ((readCompound decimals x y z name chain).claimed = 0 →
        (readCompound decimals x y z name chain).solvencyRatioBps = 10000) ∧
     (0 < (readCompound decimals x y z name chain).claimed →
        Nat.floor (readCompound decimals x y z name chain).solvencyRatioBps
          = (readCompound decimals x y z name chain).actual * 10000
              / (readCompound decimals x y z name chain).claimed)) ∧
    ((readLido decimals x y name chain).claimed = y / 10 ^ decimals ∧
     (readLido decimals x y name chain).actual = x / 10 ^ decimals ∧
     ((readLido decimals x y name chain).claimed = 0 →
        (readLido decimals x y name chain).solvencyRatioBps = 10000) ∧
     (0 < (readLido decimals x y name chain).claimed →
        Nat.floor (readLido decimals x y name chain).solvencyRatioBps
          = (readLido decimals x y name chain).actual * 10000
              / (readLido decimals x y name chain).claimed)) ∧
    ((readERC4626 decimals x y name chain).claimed = y / 10 ^ decimals ∧
     (readERC4626 decimals x y name chain).actual = x / 10 ^ decimals ∧
     ((readERC4626 decimals x y name chain).claimed = 0 →
        (readERC4626 decimals x y name chain).solvencyRatioBps = 10000) ∧
     (0 < (readERC4626 decimals x y name chain).claimed →
        Nat.floor (readERC4626 decimals x y name chain).solvencyRatioBps
          = (readERC4626 decimals x y name chain).actual * 10000
              / (readERC4626 decimals x y name chain).claimed)) := by
  obtain ⟨hz1, hp1⟩ := ratio_cases (x / 10 ^ decimals) ((y + z) / 10 ^ decimals)
  obtain ⟨hz2, hp2⟩ := ratio_cases (x / 10 ^ decimals) ((z + y) / 10 ^ decimals)
  obtain ⟨hz3, hp3⟩ := ratio_cases (y / 10 ^ decimals) (x / 10 ^ decimals)
  refine ⟨⟨rfl, rfl, hz1, ?_⟩, ⟨rfl, rfl, hz2, ?_⟩, ⟨rfl, rfl, hz3, ?_⟩,
    ⟨rfl, rfl, hz3, ?_⟩⟩
  · intro hc
    exact hp1 hc
  · intro hc
    exact (hp2 hc).2.1
  · intro hc
    exact (hp3 hc).2.1
  · intro hc
    exact (hp3 hc).2.1

/-- C5 witness: for an aave read with claimed 3 and actual 1 the ratio is
the exact 10000/3, its floor is 3333, and since 3 does not divide 10000
the ratio is not the integer; with deposits 0 the ratio is defined as
10000. -/
theorem C5_witness :
    (0 < (readAave 0 3 1 0 "A" "E").claimed ∧
      (readAave 0 3 1 0 "A" "E").solvencyRatioBps = (10000 : ℚ) / 3 ∧
      Nat.floor (readAave 0 3 1 0 "A" "E").solvencyRatioBps = 3333) ∧
    ((readAave 0 0 1 0 "A" "E").claimed = 0 ∧
      (readAave 0 0 1 0 "A" "E").solvencyRatioBps = 10000) := by
  obtain ⟨⟨-, -, -, hp⟩, -, -, -⟩ := C5_solvency_ratio_semantics 0 3 1 0 "A" "E"
  obtain ⟨hval, hfloor, -⟩ := hp (by decide)
  obtain ⟨⟨-, -, hz, -⟩, -, -, -⟩ := C5_solvency_ratio_semantics 0 0 1 0 "A" "E"
  refine ⟨⟨by decide, ?_, ?_⟩, by decide, hz (by decide)⟩
  · rw [hval]
    norm_num [readAave]
  · rw [hfloor]
    decide

/-- C8: on a non-first run the workflow risk score is the clamped-to-100
sum of the order-independent per-protocol contributions: solvency adds 15
below 9500, a further 10 below 9000 and a further 10 below 8000
(stacking); velocity adds 15 for an increasing move of at least 500 bps
plus a further 20 at 1500 bps (three times the threshold) and 10 for a
decreasing move of at least 500 bps; cross-reference risk is added, any
total above 100 is clamped to 100, and permuting the batch does not change
the score.  On a first run the velocity terms are dropped entirely. -/
theorem C8_risk_score_clamped_sum (results results2 : List ProtocolResultW)
    (velocities velocities2 : List VelocityResult) (crossRefRisk : Nat)
    (hr : results.Perm results2) (hv : velocities.Perm velocities2) :
    riskScoreOf results velocities false crossRefRisk
      = min 100 ((results.map solvencyRisk).sum
          + (velocities.map velocityRisk).sum + crossRefRisk) ∧
    riskScoreOf results velocities false crossRefRisk
      = riskScoreOf results2 velocities2 false crossRefRisk ∧
    riskScoreOf results velocities false crossRefRisk ≤ 100 ∧
    riskScoreOf results velocities true crossRefRisk
      = min 100 ((results.map solvencyRisk).sum + crossRefRisk) := by
  have hd := riskScore_decomp results velocities false crossRefRisk
  have hd2 := riskScore_decomp results2 velocities2 false crossRefRisk
  have hsum : (results.map solvencyRisk).sum = (results2.map solvencyRisk).sum :=
    (hr.map solvencyRisk).sum_eq
  have hvsum : (velocities.map velocityRisk).sum
      = (velocities2.map velocityRisk).sum :=
    (hv.map velocityRisk).sum_eq
  refine ⟨?_, ?_, ?_, ?_⟩
  · rw [hd]
    simp
  · rw [hd, hd2, hsum, hvsum]
  · rw [hd]
    exact Nat.min_le_left _ _
  · rw [riskScore_decomp]
    simp

/-- C8 witness: swapping the two protocols (and their velocity rows) of
the concrete mixed batch leaves the risk score unchanged, and the score
equals the clamped sum. -/
theorem C8_witness :
    riskScoreOf mixedBatch mixedVelocities false 0
      = riskScoreOf [seasonedUtilResult, freshUtilResult]
          mixedVelocities.reverse false 0 ∧
    riskScoreOf mixedBatch mixedVelocities false 0
      = min 100 ((mixedBatch.map solvencyRisk).sum
          + (mixedVelocities.map velocityRisk).sum + 0) := by
  have hperm : mixedBatch.Perm [seasonedUtilResult, freshUtilResult] :=
    List.Perm.swap seasonedUtilResult freshUtilResult []
  have hvperm : mixedVelocities.Perm mixedVelocities.reverse :=
    (List.reverse_perm mixedVelocities).symm
  obtain ⟨hsum, hperm2, -, -⟩ := C8_risk_score_clamped_sum mixedBatch
    [seasonedUtilResult, freshUtilResult] mixedVelocities
    mixedVelocities.reverse 0 hperm hvperm
  exact ⟨hperm2, hsum⟩

end Sentinal
